import Mathlib

/-!
Shallow embedding of the `study_node` repository's core:
the generic MySQL data-access layer (`src/core/mysql.core.js`, class
`mysqlserver`) and the Redis cache-aside helper (`redis.core.js`, class
`redisserver`).  JavaScript's dynamic values are modelled by the inductive
type `JsVal`; SQL execution is modelled by an oracle `Driver` mapping the
generated statement text and positional bind list to a promise outcome
(`Except String JsVal`); the Redis backend is modelled by an explicit
store state with failure-injection flags.
-/

namespace StudyNode

/-- Model of a JavaScript runtime value, as used by the data-access layer:
`jnull`/`jundefined` are `null` and `undefined`, `jnum` models the integer-valued
numbers the code manipulates, `jarr` and `jobj` model arrays and plain
objects (an object is its ordered list of own enumerable string-keyed
entries, matching `Object.entries` iteration order). -/
inductive JsVal where
  | jnull
  | jundefined
  | jbool (b : Bool)
  | jnum (n : Int)
  | jstr (s : String)
  | jarr (xs : List JsVal)
  | jobj (fields : List (String × JsVal))
deriving Repr

namespace JsVal

/-- Model of the JavaScript `typeof` operator (note `typeof null` is
`"object"`, and arrays are objects). -/
def jsTypeof : JsVal → String
  | .jnull => "object"
  | .jundefined => "undefined"
  | .jbool _ => "boolean"
  | .jnum _ => "number"
  | .jstr _ => "string"
  | .jarr _ => "object"
  | .jobj _ => "object"

/-- Model of `Array.isArray`. -/
def jsIsArray : JsVal → Bool
  | .jarr _ => true
  | _ => false

/-- Model of JavaScript truthiness (`Boolean(v)`): `null`, `undefined`,
`false`, `0` and `""` are falsy, everything else here is truthy. -/
def jsTruthy : JsVal → Bool
  | .jnull => false
  | .jundefined => false
  | .jbool b => b
  | .jnum n => n != 0
  | .jstr s => s ≠ ""
  | .jarr _ => true
  | .jobj _ => true

/-- Model of a `.length` property access: defined for arrays and strings,
`undefined` for every other value. -/
def jsLen : JsVal → JsVal
  | .jarr xs => .jnum xs.length
  | .jstr s => .jnum s.length
  | _ => .jundefined

/-- Model of an `[0]` element access on an array; `undefined` otherwise. -/
def jsIndex0 : JsVal → JsVal
  | .jarr (x :: _) => x
  | _ => .jundefined

/-- Model of a property access `v.name` on an object: the first entry with
that key, or `undefined` (also `undefined` for non-objects). -/
def jsGetField (name : String) : JsVal → JsVal
  | .jobj fs => ((fs.find? (fun kv => kv.1 = name)).map Prod.snd).getD .jundefined
  | _ => .jundefined

/-- Model of the JavaScript comparison `v > 0`: true only for a number
greater than zero (`undefined > 0` is false). -/
def jsGtZero : JsVal → Bool
  | .jnum n => 0 < n
  | _ => false

/-- Model of the strict comparison `v === n` against a number literal. -/
def jsStrictEqNum (n : Int) : JsVal → Bool
  | .jnum k => k == n
  | _ => false

/-- Model of `parseInt` as applied by the layer to a `COUNT(...)` result
cell: a number parses to itself, a decimal string to its value.  The `NaN`
produced on other inputs is modelled as `0` (the claims only exercise
numeric count cells, where this model is exact). -/
def jsParseInt : JsVal → Int
  | .jnum n => n
  | .jstr s => (s.toInt?).getD 0
  | _ => 0

end JsVal

mutual

/-- Model of JavaScript string conversion `String(v)` (as performed by a
template literal or `Array.prototype.join`): arrays join their elements
with commas (`null`/`undefined` elements become empty), plain objects
become `"[object Object]"`. -/
def jsToString : JsVal → String
  | .jnull => "null"
  | .jundefined => "undefined"
  | .jbool b => if b then "true" else "false"
  | .jnum n => toString n
  | .jstr s => s
  | .jarr xs => String.intercalate "," (jsToStringArr xs)
  | .jobj _ => "[object Object]"

/-- String conversion of array elements for `Array.prototype.toString`:
`null` and `undefined` elements convert to the empty string. -/
def jsToStringArr : List JsVal → List String
  | [] => []
  | .jnull :: rest => "" :: jsToStringArr rest
  | .jundefined :: rest => "" :: jsToStringArr rest
  | x :: rest => jsToString x :: jsToStringArr rest

end

/-- Model of `String.prototype.trim`: strips leading and trailing
whitespace (structural, over the character list). -/
def jsTrim (s : String) : String :=
  String.mk (((s.toList.dropWhile Char.isWhitespace).reverse.dropWhile
    Char.isWhitespace).reverse)

/-- Model of `String.prototype.toUpperCase` over the character list. -/
def jsToUpper (s : String) : String :=
  String.mk (s.toList.map Char.toUpper)

/-- Model of `Object.entries` as a fallible operation: throws a `TypeError`
for `null`/`undefined`, yields the ordered field list for an object, the
indexed elements for an array, the indexed characters for a string, and
an empty list for the remaining primitives. -/
def objectEntriesE : JsVal → Except String (List (String × JsVal))
  | .jnull => .error "TypeError: Cannot convert undefined or null to object"
  | .jundefined => .error "TypeError: Cannot convert undefined or null to object"
  | .jobj fs => .ok fs
  | .jarr xs => .ok ((xs.enum).map (fun p => (toString p.1, p.2)))
  | .jstr s => .ok ((s.toList.enum).map (fun p => (toString p.1, .jstr (String.mk [p.2]))))
  | _ => .ok []

/-- Model of `Object.keys` (first components of `objectEntriesE`). -/
def objectKeysE (v : JsVal) : Except String (List String) :=
  (objectEntriesE v).map (fun es => es.map Prod.fst)

/-- Model of `Object.values` (second components of `objectEntriesE`). -/
def objectValuesE (v : JsVal) : Except String (List JsVal) :=
  (objectEntriesE v).map (fun es => es.map Prod.snd)

/-- Escaping of one character inside a JSON string literal, as produced by
`JSON.stringify`. -/
def jsonEscChar (c : Char) : String :=
  if c = '"' then "\\\""
  else if c = '\\' then "\\\\"
  else if c = '\n' then "\\n"
  else if c = '\t' then "\\t"
  else if c = '\r' then "\\r"
  else String.mk [c]

/-- JSON string literal for `s`, as produced by `JSON.stringify`. -/
def jsonQuote (s : String) : String :=
  "\"" ++ String.join (s.toList.map jsonEscChar) ++ "\""

mutual

/-- Model of `JSON.stringify`: objects keep their insertion order and skip
`undefined`-valued entries, arrays render `undefined` elements as `null`.
A top-level `undefined` (where the real builtin returns the non-string
`undefined`) is rendered as the string `"undefined"`; that corner is not
exercised by the layer. -/
def jsonStringify : JsVal → String
  | .jnull => "null"
  | .jundefined => "undefined"
  | .jbool b => if b then "true" else "false"
  | .jnum n => toString n
  | .jstr s => jsonQuote s
  | .jarr xs => "[" ++ String.intercalate "," (jsonStringifyArr xs) ++ "]"
  | .jobj fs => "\x7b" ++ String.intercalate "," (jsonStringifyObj fs) ++ "\x7d"

/-- Array elements under `JSON.stringify`: `undefined` becomes `null`. -/
def jsonStringifyArr : List JsVal → List String
  | [] => []
  | .jundefined :: rest => "null" :: jsonStringifyArr rest
  | x :: rest => jsonStringify x :: jsonStringifyArr rest

/-- Object entries under `JSON.stringify`: `undefined`-valued entries are
skipped entirely. -/
def jsonStringifyObj : List (String × JsVal) → List String
  | [] => []
  | (_, .jundefined) :: rest => jsonStringifyObj rest
  | (k, v) :: rest => (jsonQuote k ++ ":" ++ jsonStringify v) :: jsonStringifyObj rest

end

/-- Whitespace skipping for the JSON reader. -/
def jsonSkipWs : List Char → List Char
  | c :: rest =>
    if c = ' ' ∨ c = '\n' ∨ c = '\t' ∨ c = '\r' then jsonSkipWs rest else c :: rest
  | [] => []

/-- Reader for the body of a JSON string literal (the opening quote already
consumed); returns the decoded characters and the input remaining after the
closing quote. -/
def jsonReadStr : Nat → List Char → Except String (List Char × List Char)
  | 0, _ => .error "SyntaxError: Unexpected end of JSON input"
  | _, [] => .error "SyntaxError: Unexpected end of JSON input"
  | fuel + 1, c :: rest =>
    if c = '"' then .ok ([], rest)
    else if c = '\\' then
      match rest with
      | [] => .error "SyntaxError: Unexpected end of JSON input"
      | e :: rest' =>
        let dec : Char :=
          if e = 'n' then '\n' else if e = 't' then '\t' else if e = 'r' then '\r' else e
        match jsonReadStr fuel rest' with
        | .ok (cs, rem) => .ok (dec :: cs, rem)
        | .error err => .error err
    else
      match jsonReadStr fuel rest with
      | .ok (cs, rem) => .ok (c :: cs, rem)
      | .error err => .error err

/-- Numeric value of a digit run (most significant first). -/
def digitsToNat (ds : List Char) : Nat :=
  ds.foldl (fun acc c => acc * 10 + (c.toNat - '0'.toNat)) 0

/-- Reader for a run of decimal digits; returns the digits and the rest. -/
def jsonReadDigits : Nat → List Char → (List Char × List Char)
  | 0, cs => ([], cs)
  | fuel + 1, c :: rest =>
    if c.isDigit then
      let (ds, rem) := jsonReadDigits fuel rest
      (c :: ds, rem)
    else ([], c :: rest)
  | _ + 1, [] => ([], [])

mutual

/-- Model of `JSON.parse` over the integer/string/bool/null/array/object
fragment of JSON (the only shapes this layer ever serializes); recursion is
bounded by an explicit fuel. -/
def jsonParseVal : Nat → List Char → Except String (JsVal × List Char)
  | 0, _ => .error "SyntaxError: Unexpected end of JSON input"
  | _ + 1, [] => .error "SyntaxError: Unexpected end of JSON input"
  | fuel + 1, c :: rest =>
    if c = 'n' then
      match rest with
      | 'u' :: 'l' :: 'l' :: rem => .ok (.jnull, rem)
      | _ => .error "SyntaxError: Unexpected token"
    else if c = 't' then
      match rest with
      | 'r' :: 'u' :: 'e' :: rem => .ok (.jbool true, rem)
      | _ => .error "SyntaxError: Unexpected token"
    else if c = 'f' then
      match rest with
      | 'a' :: 'l' :: 's' :: 'e' :: rem => .ok (.jbool false, rem)
      | _ => .error "SyntaxError: Unexpected token"
    else if c = '"' then
      match jsonReadStr fuel rest with
      | .ok (cs, rem) => .ok (.jstr (String.mk cs), rem)
      | .error e => .error e
    else if c = '-' then
      match jsonReadDigits fuel rest with
      | ([], _) => .error "SyntaxError: Unexpected token"
      | (ds, rem) => .ok (.jnum (-(digitsToNat ds : Nat)), rem)
    else if c.isDigit then
      let (ds, rem) := jsonReadDigits fuel (c :: rest)
      .ok (.jnum (digitsToNat ds), rem)
    else if c = '[' then
      match jsonSkipWs rest with
      | ']' :: rem => .ok (.jarr [], rem)
      | rest' =>
        match jsonParseArr fuel rest' with
        | .ok (xs, rem) => .ok (.jarr xs, rem)
        | .error e => .error e
    else if c = '\x7b' then
      match jsonSkipWs rest with
      | '\x7d' :: rem => .ok (.jobj [], rem)
      | rest' =>
        match jsonParseObj fuel rest' with
        | .ok (fs, rem) => .ok (.jobj fs, rem)
        | .error e => .error e
    else .error "SyntaxError: Unexpected token"

/-- Reader for the comma-separated elements of a non-empty JSON array,
up to and including the closing bracket. -/
def jsonParseArr : Nat → List Char → Except String (List JsVal × List Char)
  | 0, _ => .error "SyntaxError: Unexpected end of JSON input"
  | fuel + 1, cs =>
    match jsonParseVal fuel (jsonSkipWs cs) with
    | .error e => .error e
    | .ok (v, rem) =>
      match jsonSkipWs rem with
      | ']' :: rem' => .ok ([v], rem')
      | ',' :: rem' =>
        match jsonParseArr fuel rem' with
        | .ok (vs, rem'') => .ok (v :: vs, rem'')
        | .error e => .error e
      | _ => .error "SyntaxError: Unexpected token"

/-- Reader for the comma-separated entries of a non-empty JSON object,
up to and including the closing brace. -/
def jsonParseObj : Nat → List Char → Except String (List (String × JsVal) × List Char)
  | 0, _ => .error "SyntaxError: Unexpected end of JSON input"
  | fuel + 1, cs =>
    match jsonSkipWs cs with
    | '"' :: cs' =>
      match jsonReadStr fuel cs' with
      | .error e => .error e
      | .ok (kcs, rem) =>
        match jsonSkipWs rem with
        | ':' :: rem' =>
          match jsonParseVal fuel (jsonSkipWs rem') with
          | .error e => .error e
          | .ok (v, rem'') =>
            match jsonSkipWs rem'' with
            | '\x7d' :: rem3 => .ok ([(String.mk kcs, v)], rem3)
            | ',' :: rem3 =>
              match jsonParseObj fuel rem3 with
              | .ok (fs, rem4) => .ok ((String.mk kcs, v) :: fs, rem4)
              | .error e => .error e
            | _ => .error "SyntaxError: Unexpected token"
        | _ => .error "SyntaxError: Unexpected token"
    | _ => .error "SyntaxError: Unexpected token"

end

/-- Model of `JSON.parse` on a whole string. -/
def jsonParse (s : String) : Except String JsVal :=
  match jsonParseVal (s.length + 1) (jsonSkipWs s.toList) with
  | .ok (v, rem) =>
    if (jsonSkipWs rem).isEmpty then .ok v
    else .error "SyntaxError: Unexpected token"
  | .error e => .error e

/-- Model of `throw new Error(error)`: re-throwing prefixes the stringified
inner error with `Error: ` (the result of `String(new Error(e))`). -/
def jsWrapErr (e : String) : String :=
  "Error: " ++ e

/-- Propagation of a `try / catch (error) { logger.error(...); throw new
Error(error) }` block around a possibly-failing computation. -/
def exWrap {α : Type} : Except String α → Except String α
  | .ok a => .ok a
  | .error e => .error (jsWrapErr e)

/-- Model of `Math.ceil(a / b)` for integers with `b > 0`:
the ceiling of the rational `a / b`. -/
def mathCeilDiv (a b : Int) : Int :=
  -((-a).fdiv b)

/-- Table binding of one `mysqlserver` instance: the constructor arguments
`(tableName, primaryField, sortKey)`. -/
structure Mysqlserver where
  tableName : String
  primaryField : String
  sortKey : String

/-- Model of the result of `connection.query(sql, values)` as destructured
by the layer: the promise outcome carrying the dynamic `rows` value (a rows
array for selects, an `OkPacket`-style object with `affectedRows` /
`insertId` fields for writes). -/
def Driver : Type :=
  String → List JsVal → Except String JsVal

/-- Model of the `connection` argument: `none` models the literal `false`
connection that `queryAsync` checks for, `some drv` a live connection whose
query behaviour is the oracle `drv`. -/
def Conn : Type :=
  Option Driver

namespace Mysqlserver

/-- Global replacement performed by `_escapeFieldName`'s
`.replace(/`/g, '``')`: every backtick is doubled. -/
def doubleBackticks : List Char → List Char
  | [] => []
  | c :: rest =>
    if c = '`' then '`' :: '`' :: doubleBackticks rest
    else c :: doubleBackticks rest

/-- Embedding of `_escapeFieldName`: wrap in backticks, doubling any
embedded backtick. -/
def escapeFieldName (fieldName : String) : String :=
  "`" ++ String.mk (doubleBackticks fieldName.toList) ++ "`"

/-- One iteration of the `for (const [key, value] of Object.entries(filter))`
loop of `_buildWhereClause`: entries with `undefined`/`null` values are
skipped; a key in `likeFields` contributes a `LIKE ?` condition binding
`%value%`, any other key an `= ?` condition binding the value as-is. -/
def whereStep (likeFields : List String) (acc : List String × List JsVal)
    (kv : String × JsVal) : List String × List JsVal :=
  match kv.2 with
  | .jundefined => acc
  | .jnull => acc
  | v =>
    if likeFields.contains kv.1 then
      (acc.1 ++ [escapeFieldName kv.1 ++ " LIKE ?"],
       acc.2 ++ [.jstr ("%" ++ jsToString v ++ "%")])
    else
      (acc.1 ++ [escapeFieldName kv.1 ++ " = ?"], acc.2 ++ [v])

/-- Embedding of `_buildWhereClause` on the ordered entry list of the filter
object: the empty filter yields an empty clause, otherwise the conditions
collected by `whereStep` are joined with ` AND ` under a `WHERE ` prefix
(still empty when every entry was `null`/`undefined`). -/
def buildWhereClauseEntries (entries : List (String × JsVal))
    (likeFields : List String) : String × List JsVal :=
  if entries.length = 0 then ("", [])
  else
    let cv := entries.foldl (whereStep likeFields) ([], [])
    (if cv.1.length > 0 then "WHERE " ++ String.intercalate " AND " cv.1 else "", cv.2)

/-- Embedding of `_buildWhereClause` on the dynamic filter value: the
`Object.keys`/`Object.entries` calls throw for `null`, otherwise the clause
is built over the entry list. -/
def buildWhereClause (filter : JsVal) (likeFields : List String) :
    Except String (String × List JsVal) := do
  let entries ← objectEntriesE filter
  pure (buildWhereClauseEntries entries likeFields)

/-- Embedding of `_buildOrderByClause`: a non-blank string is used verbatim
after `ORDER BY `; an object with at least one key maps each entry to
`` `col` DESC `` when the value is `-1` or upper-cases to `"DESC"` and to
`` `col` ASC `` otherwise; anything else falls back to
`` ORDER BY `primaryField` DESC ``. -/
def buildOrderByClause (m : Mysqlserver) (orderBy : JsVal) : Except String String :=
  match orderBy with
  | .jstr s =>
    if jsTrim s ≠ "" then pure ("ORDER BY " ++ s)
    else pure ("ORDER BY " ++ escapeFieldName m.primaryField ++ " DESC")
  | ob =>
    if ob.jsTypeof = "object" then do
      let entries ← objectEntriesE ob
      if entries.length > 0 then
        pure ("ORDER BY " ++ String.intercalate ", " (entries.map (fun kv =>
          escapeFieldName kv.1 ++ " " ++
            (if kv.2.jsStrictEqNum (-1) || jsToUpper (jsToString kv.2) == "DESC"
             then "DESC" else "ASC"))))
      else
        pure ("ORDER BY " ++ escapeFieldName m.primaryField ++ " DESC")
    else pure ("ORDER BY " ++ escapeFieldName m.primaryField ++ " DESC")

/-- Embedding of `queryAsync`: a `false` connection short-circuits to the
value `false`; a live connection consults the driver oracle, and a driver
failure is re-thrown as `new Error(error)`. -/
def queryAsync (conn : Conn) (sql : String) (values : List JsVal) :
    Except String JsVal :=
  match conn with
  | none => .ok (.jbool false)
  | some drv => exWrap (drv sql values)

/-- Statement text generated by `findOneByFilterAsync`. -/
def findOneSql (m : Mysqlserver) (select w : String) : String :=
  "SELECT " ++ select ++ " FROM " ++ escapeFieldName m.tableName ++ " " ++ w ++ " LIMIT 1"

/-- Embedding of `findOneByFilterAsync`: rejects non-object filters, then
selects with `LIMIT 1` and returns the first row or the sentinel `false`. -/
def findOneByFilterAsync (m : Mysqlserver) (conn : Conn) (filter : JsVal)
    (likeFields : List String) (select : String) : Except String JsVal :=
  if filter.jsTypeof != "object" || filter.jsIsArray then
    .error "Filter must be an object"
  else do
    let wv ← buildWhereClause filter likeFields
    exWrap (do
      let result ← queryAsync conn (findOneSql m select wv.1) wv.2
      if result.jsLen.jsGtZero then pure result.jsIndex0 else pure (.jbool false))

/-- Statement text generated by `findByFilterAsync`. -/
def findManySql (m : Mysqlserver) (select w obc : String) : String :=
  "SELECT " ++ select ++ " FROM " ++ escapeFieldName m.tableName ++ " " ++ w ++ " " ++ obc

/-- Embedding of `findByFilterAsync`: rejects non-object filters, then
returns whatever row set the execution layer produced. -/
def findByFilterAsync (m : Mysqlserver) (conn : Conn) (filter : JsVal)
    (likeFields : List String) (select : String) (orderBy : JsVal) :
    Except String JsVal :=
  if filter.jsTypeof != "object" || filter.jsIsArray then
    .error "Filter must be an object"
  else do
    let wv ← buildWhereClause filter likeFields
    let obc ← buildOrderByClause m orderBy
    exWrap (queryAsync conn (findManySql m select wv.1 obc) wv.2)

/-- Statement text generated by `countByFilterAsync`. -/
def countSql (m : Mysqlserver) (w : String) : String :=
  "SELECT COUNT(" ++ escapeFieldName m.primaryField ++ ") AS CNT FROM " ++
    escapeFieldName m.tableName ++ " " ++ w

/-- Embedding of `countByFilterAsync`: rejects non-object filters, then
extracts `parseInt(result[0].CNT)` from a non-empty result set and `0`
otherwise. -/
def countByFilterAsync (m : Mysqlserver) (conn : Conn) (filter : JsVal)
    (likeFields : List String) : Except String JsVal :=
  if filter.jsTypeof != "object" || filter.jsIsArray then
    .error "Filter must be an object"
  else do
    let wv ← buildWhereClause filter likeFields
    exWrap (do
      let result ← queryAsync conn (countSql m wv.1) wv.2
      if result.jsLen.jsGtZero then
        pure (.jnum (result.jsIndex0.jsGetField "CNT").jsParseInt)
      else pure (.jnum 0))

end Mysqlserver

/-- Shape of the object returned by `findByPageAsync`. -/
structure PageResult where
  documents : JsVal
  page : Int
  pageSize : Int
  totalCount : Int
  totalPages : Int
deriving Repr

namespace Mysqlserver

/-- Data-page statement text generated by `findByPageAsync` (a template
literal: the embedded newlines and indentation are part of the statement). -/
def pageDataSql (m : Mysqlserver) (select w obc : String) : String :=
  "\n      SELECT " ++ select ++ " FROM " ++ escapeFieldName m.tableName ++
    "\n      " ++ w ++ "\n      " ++ obc ++ "\n      LIMIT ? OFFSET ?\n    "

/-- Count statement text generated by `findByPageAsync`. -/
def pageCountSql (m : Mysqlserver) (w : String) : String :=
  "\n      SELECT COUNT(*) as CNT FROM " ++ escapeFieldName m.tableName ++
    "\n      " ++ w ++ "\n    "

/-- Embedding of `findByPageAsync`: one data query at
`LIMIT pageSize OFFSET (page-1)*pageSize` and one count query over the same
predicate and binds, returning the page object with
`totalPages = Math.ceil(totalCount / pageSize)`. -/
def findByPageAsync (m : Mysqlserver) (conn : Conn) (filter : JsVal)
    (likeFields : List String) (select : String) (page pageSize : Int)
    (sort : JsVal) : Except String PageResult :=
  exWrap (do
    let wv ← buildWhereClause filter likeFields
    let offset := (page - 1) * pageSize
    let obc ← buildOrderByClause m sort
    let documents ← queryAsync conn (pageDataSql m select wv.1 obc)
      (wv.2 ++ [.jnum pageSize, .jnum offset])
    let result ← queryAsync conn (pageCountSql m wv.1) wv.2
    let totalCount :=
      if result.jsLen.jsGtZero then (result.jsIndex0.jsGetField "CNT").jsParseInt else 0
    pure ⟨documents, page, pageSize, totalCount, mathCeilDiv totalCount pageSize⟩)

/-- Statement text generated by `insertAsync`. -/
def insertSql (m : Mysqlserver) (keys : List String) : String :=
  "INSERT INTO " ++ escapeFieldName m.tableName ++ " (" ++
    String.intercalate ", " (keys.map escapeFieldName) ++ ") VALUES (" ++
    String.intercalate ", " (keys.map (fun _ => "?")) ++ ")"

/-- Embedding of `insertAsync`: rejects non-object, array and empty data
before building the statement; returns `false` when the execution layer
reports a falsy result and the result's `insertId` field otherwise. -/
def insertAsync (m : Mysqlserver) (conn : Conn) (datas : JsVal) :
    Except String JsVal :=
  if datas.jsTypeof != "object" || datas.jsIsArray then
    .error "Data must be an object"
  else do
    let keys ← objectKeysE datas
    if keys.length = 0 then .error "Data object cannot be empty"
    else do
      let values ← objectValuesE datas
      exWrap (do
        let result ← queryAsync conn (insertSql m keys) values
        if !result.jsTruthy then pure (.jbool false)
        else pure (result.jsGetField "insertId"))

/-- The `SET` assignment list built by `updateByFilterAsync`. -/
def eqSetClause (keys : List String) : String :=
  String.intercalate ", " (keys.map (fun key => escapeFieldName key ++ " = ?"))

/-- The `WHERE`-prefixed ANDed equality predicate built from an object
filter's keys, shared by `updateByFilterAsync` and `deleteByFilterAsync`. -/
def eqWhereClause (keys : List String) : String :=
  "WHERE " ++ String.intercalate " AND " (keys.map (fun key => escapeFieldName key ++ " = ?"))

/-- Statement text generated by `updateByFilterAsync`. -/
def updateSql (m : Mysqlserver) (setClause whereClause : String) : String :=
  "UPDATE " ++ escapeFieldName m.tableName ++ " SET " ++ setClause ++ " " ++ whereClause

/-- Embedding of `updateByFilterAsync`.  The whole body runs inside one
`try`, so every failure is re-thrown wrapped once more.  An object filter
contributes an ANDed equality predicate with its values appended after the
data values; a string filter is embedded verbatim (with no `WHERE ` prefix
of its own); anything else is rejected. -/
def updateByFilterAsync (m : Mysqlserver) (conn : Conn) (filter datas : JsVal) :
    Except String Bool :=
  exWrap (do
    if datas.jsTypeof != "object" || datas.jsIsArray then
      .error "Data must be an object"
    else do
      let dkeys ← objectKeysE datas
      if dkeys.length = 0 then .error "Data must be an object"
      else do
        let dvalues ← objectValuesE datas
        if filter.jsTypeof == "object" && !filter.jsIsArray then do
          let fkeys ← objectKeysE filter
          let fvalues ← objectValuesE filter
          let result ← queryAsync conn
            (updateSql m (eqSetClause dkeys) (eqWhereClause fkeys)) (dvalues ++ fvalues)
          pure (result.jsGetField "affectedRows").jsGtZero
        else if filter.jsTypeof == "string" && jsTrim (jsToString filter) != "" then do
          let result ← queryAsync conn
            (updateSql m (eqSetClause dkeys) (jsToString filter)) dvalues
          pure (result.jsGetField "affectedRows").jsGtZero
        else .error "A valid filter condition must be provided.")

/-- Statement text generated by `upsertAsync` (a template literal; the data
argument alone determines the column list, placeholders and
`ON DUPLICATE KEY UPDATE` assignments). -/
def upsertSql (m : Mysqlserver) (columns : List String) : String :=
  "\n    INSERT INTO " ++ escapeFieldName m.tableName ++ "\n    (" ++
    String.intercalate ", " (columns.map escapeFieldName) ++ ")\n    VALUES (" ++
    String.intercalate ", " (columns.map (fun _ => "?")) ++
    ")\n    ON DUPLICATE KEY UPDATE\n    " ++
    String.intercalate ", "
      (columns.map (fun col => escapeFieldName col ++ " = VALUES(" ++ escapeFieldName col ++ ")")) ++
    "\n  "

/-- Embedding of `upsertAsync`: validates that filter and data are non-empty
objects, then runs the insert-or-update statement directly on the connection
(its `catch` re-throws the original error unwrapped). -/
def upsertAsync (m : Mysqlserver) (conn : Conn) (filter data : JsVal) :
    Except String Bool :=
  if filter.jsTypeof != "object" || filter.jsIsArray then
    .error "Filter must be a non-empty object"
  else do
    let fkeys ← objectKeysE filter
    if fkeys.length = 0 then .error "Filter must be a non-empty object"
    else if data.jsTypeof != "object" || data.jsIsArray then
      .error "Data must be a non-empty object"
    else do
      let columns ← objectKeysE data
      if columns.length = 0 then .error "Data must be a non-empty object"
      else do
        let values ← objectValuesE data
        match conn with
        | none => .error "TypeError: connection.query is not a function"
        | some drv =>
          match drv (upsertSql m columns) values with
          | .ok result => .ok (result.jsGetField "affectedRows").jsGtZero
          | .error e => .error e

/-- Statement text generated by `deleteByFilterAsync`. -/
def deleteSql (m : Mysqlserver) (whereClause : String) : String :=
  "DELETE FROM " ++ escapeFieldName m.tableName ++ " " ++ whereClause

/-- Embedding of `deleteByFilterAsync`.  An object filter contributes the
same ANDed equality predicate as `updateByFilterAsync`; a string filter is
embedded after an explicit `WHERE ` prefix (unlike update); anything else is
rejected. -/
def deleteByFilterAsync (m : Mysqlserver) (conn : Conn) (filter : JsVal) :
    Except String Bool :=
  exWrap (do
    if filter.jsTypeof == "object" && !filter.jsIsArray then do
      let fkeys ← objectKeysE filter
      let fvalues ← objectValuesE filter
      let result ← queryAsync conn (deleteSql m (eqWhereClause fkeys)) fvalues
      pure (result.jsGetField "affectedRows").jsGtZero
    else if filter.jsTypeof == "string" && jsTrim (jsToString filter) != "" then do
      let result ← queryAsync conn (deleteSql m ("WHERE " ++ jsToString filter)) []
      pure (result.jsGetField "affectedRows").jsGtZero
    else .error "유효한 필터 조건이 제공되어야 합니다")

end Mysqlserver

/-- Model of the Redis backend reachable from `redisserver`: the string
key-value store, the TTLs recorded by `EXPIRE`, and one failure-injection
flag per client operation (a raised flag makes the corresponding client
promise reject, modelling an unreachable or failing backend). -/
structure RedisSt where
  store : List (String × String)
  ttls : List (String × Nat)
  getFail : Bool
  setFail : Bool
  expireFail : Bool
deriving Repr

/-- The empty, healthy Redis backend. -/
def RedisSt.empty : RedisSt :=
  ⟨[], [], false, false, false⟩

/-- Insert-or-replace in an association list keyed by strings. -/
def alistPut {α : Type} (kvs : List (String × α)) (k : String) (v : α) :
    List (String × α) :=
  kvs.filter (fun kv => kv.1 ≠ k) ++ [(k, v)]

/-- Lookup in an association list keyed by strings. -/
def alistGet {α : Type} (kvs : List (String × α)) (k : String) : Option α :=
  (kvs.find? (fun kv => kv.1 = k)).map Prod.snd

namespace Redisserver

/-- Promise outcome of `redisClient.get`: the stored string, `null` when the
key is absent, rejection when the backend fails. -/
def clientGet (k : String) (st : RedisSt) : Except String (Option String) :=
  if st.getFail then .error "redis get failed" else .ok (alistGet st.store k)

/-- Promise outcome and state effect of `redisClient.set`. -/
def clientSet (k v : String) (st : RedisSt) : Except String String × RedisSt :=
  if st.setFail then (.error "redis set failed", st)
  else (.ok "OK", { st with store := alistPut st.store k v })

/-- Promise outcome and state effect of `redisClient.expire`: true and a
recorded TTL when the key exists, false otherwise. -/
def clientExpire (k : String) (ttl : Nat) (st : RedisSt) :
    Except String Bool × RedisSt :=
  if st.expireFail then (.error "redis expire failed", st)
  else
    match alistGet st.store k with
    | some _ => (.ok true, { st with ttls := alistPut st.ttls k ttl })
    | none => (.ok false, st)

/-- Embedding of `getAsync`: the key is namespaced by the deployment
environment; a backend failure is caught and becomes the value `false`,
an absent key is the client's `null`, a present key its stored string. -/
def getAsync (env key : String) (st : RedisSt) : JsVal :=
  let key := env ++ "_" ++ key
  match clientGet key st with
  | .error _ => .jbool false
  | .ok none => .jnull
  | .ok (some s) => .jstr s

/-- Embedding of `setAsync`.  The client `set` call is not awaited: its
promise is stored in `result` and returned at the end, so the `try/catch`
only intercepts a failure of the awaited `expire` call (which yields the
value `false`), while a rejection of the `set` promise itself is adopted by
`setAsync`'s own promise and escapes to the caller. -/
def setAsync (env key value : String) (expireTTL : Nat) (st : RedisSt) :
    Except String JsVal × RedisSt :=
  let k := env ++ "_" ++ key
  let ps := clientSet k value st
  if expireTTL > 0 then
    match clientExpire k expireTTL ps.2 with
    | (.error _, st2) => (.ok (.jbool false), st2)
    | (.ok _, st2) =>
      match ps.1 with
      | .ok s => (.ok (.jstr s), st2)
      | .error e => (.error e, st2)
  else
    match ps.1 with
    | .ok s => (.ok (.jstr s), ps.2)
    | .error e => (.error e, ps.2)

/-- Embedding of `getOrSetCache`: on a truthy stored string the
deserialized value is returned; otherwise the fetch callback runs and a
truthy fetch result is serialized and stored with the given expiration.
The surrounding `try/catch` converts any escaping failure — a fetch error,
a `JSON.parse` error, or a rejection adopted from `setAsync` — into the
value `null`. -/
def getOrSetCache (env key : String) (fetchFunction : Except String JsVal)
    (expireSeconds : Nat) (st : RedisSt) : JsVal × RedisSt :=
  let g := getAsync env key st
  if !g.jsTruthy then
    match fetchFunction with
    | .error _ => (.jnull, st)
    | .ok v =>
      if v.jsTruthy then
        match setAsync env key (jsonStringify v) expireSeconds st with
        | (.ok _, st') => (v, st')
        | (.error _, st') => (.jnull, st')
      else (v, st)
  else
    match g with
    | .jstr s =>
      match jsonParse s with
      | .ok v => (v, st)
      | .error _ => (.jnull, st)
    | _ => (.jnull, st)

end Redisserver

namespace Mysqlserver

/-- String conversion of one element of an `Array.prototype.join` call:
`null` and `undefined` join as the empty string. -/
def joinElemStr : JsVal → String
  | .jnull => ""
  | .jundefined => ""
  | v => jsToString v

/-- Cache key built by `findOneByFilterFromCacheAsync`:
`['mysql', tableName, JSON.stringify(filter), select].join('__')` — note it
does not mention the like-field list. -/
def findOneCacheKey (m : Mysqlserver) (filter : JsVal) (select : String) : String :=
  String.intercalate "__" ["mysql", m.tableName, jsonStringify filter, select]

/-- Embedding of `findOneByFilterFromCacheAsync`: validates the filter, then
routes the uncached read through `getOrSetCache` under `findOneCacheKey`. -/
def findOneByFilterFromCacheAsync (m : Mysqlserver) (conn : Conn) (filter : JsVal)
    (likeFields : List String) (select : String) (expireSeconds : Nat)
    (env : String) (st : RedisSt) : Except String (JsVal × RedisSt) :=
  if filter.jsTypeof != "object" || filter.jsIsArray then
    .error "Data must be an object"
  else
    .ok (Redisserver.getOrSetCache env (findOneCacheKey m filter select)
      (findOneByFilterAsync m conn filter likeFields select) expireSeconds st)

/-- Cache key built by `findByFilterFromCacheAsync`:
`['mysql', tableName, JSON.stringify(filter), select, orderBy].join('__')` —
again without the like-field list. -/
def findManyCacheKey (m : Mysqlserver) (filter : JsVal) (select : String)
    (orderBy : JsVal) : String :=
  String.intercalate "__" ["mysql", m.tableName, jsonStringify filter, select,
    joinElemStr orderBy]

/-- Embedding of `findByFilterFromCacheAsync`. -/
def findByFilterFromCacheAsync (m : Mysqlserver) (conn : Conn) (filter : JsVal)
    (likeFields : List String) (select : String) (orderBy : JsVal)
    (expireSeconds : Nat) (env : String) (st : RedisSt) :
    Except String (JsVal × RedisSt) :=
  if filter.jsTypeof != "object" || filter.jsIsArray then
    .error "Data must be an object"
  else
    .ok (Redisserver.getOrSetCache env (findManyCacheKey m filter select orderBy)
      (findByFilterAsync m conn filter likeFields select orderBy) expireSeconds st)

/-- Cache key built by `countByFilterFromCacheAsync`:
`['mysql', tableName, JSON.stringify(filter)].join('__')` — neither the
like-field list nor any column selection enters the key. -/
def countCacheKey (m : Mysqlserver) (filter : JsVal) : String :=
  String.intercalate "__" ["mysql", m.tableName, jsonStringify filter]

/-- Embedding of `countByFilterFromCacheAsync`. -/
def countByFilterFromCacheAsync (m : Mysqlserver) (conn : Conn) (filter : JsVal)
    (likeFields : List String) (expireSeconds : Nat) (env : String)
    (st : RedisSt) : Except String (JsVal × RedisSt) :=
  if filter.jsTypeof != "object" || filter.jsIsArray then
    .error "Data must be an object"
  else
    .ok (Redisserver.getOrSetCache env (countCacheKey m filter)
      (countByFilterAsync m conn filter likeFields) expireSeconds st)

end Mysqlserver

/-! Specification-side vocabulary for the WHERE-clause claim, written from
the claim's words so the generated clause can be compared against it. -/

/-- An entry contributes a condition iff its value is neither `null` nor
`undefined`. -/
def entryKept (kv : String × JsVal) : Bool :=
  match kv.2 with
  | .jundefined => false
  | .jnull => false
  | _ => true

/-- The condition text an entry contributes: `LIKE ?` for a like-field,
`= ?` otherwise, over the escaped column name. -/
def entryCond (likeFields : List String) (kv : String × JsVal) : String :=
  if likeFields.contains kv.1 then Mysqlserver.escapeFieldName kv.1 ++ " LIKE ?"
  else Mysqlserver.escapeFieldName kv.1 ++ " = ?"

/-- The bind value an entry contributes: `%value%` for a like-field, the
value as-is otherwise. -/
def entryBind (likeFields : List String) (kv : String × JsVal) : JsVal :=
  if likeFields.contains kv.1 then .jstr ("%" ++ jsToString kv.2 ++ "%")
  else kv.2

/-- The fold of `whereStep` accumulates exactly one condition and one bind
per non-`null`/`undefined` entry, in entry order, after any seed. -/
theorem whereStep_foldl (lf : List String) (fs : List (String × JsVal)) :
    ∀ (cs : List String) (vs : List JsVal),
    fs.foldl (Mysqlserver.whereStep lf) (cs, vs) =
      (cs ++ (fs.filter entryKept).map (entryCond lf),
       vs ++ (fs.filter entryKept).map (entryBind lf)) := by
  induction fs with
  | nil => intro cs vs; simp
  | cons kv rest ih =>
    intro cs vs
    obtain ⟨k, v⟩ := kv
    match v with
    | .jundefined => simpa [Mysqlserver.whereStep, entryKept] using ih cs vs
    | .jnull => simpa [Mysqlserver.whereStep, entryKept] using ih cs vs
    | .jbool b =>
      by_cases h : k ∈ lf <;>
        simp [Mysqlserver.whereStep, entryKept, entryCond, entryBind, h, ih]
    | .jnum n =>
      by_cases h : k ∈ lf <;>
        simp [Mysqlserver.whereStep, entryKept, entryCond, entryBind, h, ih]
    | .jstr s =>
      by_cases h : k ∈ lf <;>
        simp [Mysqlserver.whereStep, entryKept, entryCond, entryBind, h, ih]
    | .jarr xs =>
      by_cases h : k ∈ lf <;>
        simp [Mysqlserver.whereStep, entryKept, entryCond, entryBind, h, ih]
    | .jobj gs =>
      by_cases h : k ∈ lf <;>
        simp [Mysqlserver.whereStep, entryKept, entryCond, entryBind, h, ih]

/-- C1: for every filter mapping, `_buildWhereClause` with a like-field list
produces exactly one condition per entry whose value is neither `null` nor
`undefined`, joined by ` AND ` under a `WHERE ` prefix; a like-field entry
yields `` `col` LIKE ? `` binding `%value%` and every other entry yields
`` `col` = ? `` binding the value as-is; binds appear in the mapping's
iteration order, `null`/`undefined` entries contribute nothing, and when no
condition remains (in particular for the empty mapping) the clause is the
empty string, so no `WHERE` is emitted. -/
theorem C1_where_clause (fs : List (String × JsVal)) (likeFields : List String) :
    Mysqlserver.buildWhereClause (.jobj fs) likeFields =
      .ok
        (if (fs.filter entryKept).isEmpty then ""
         else "WHERE " ++ String.intercalate " AND "
           ((fs.filter entryKept).map (entryCond likeFields)),
         (fs.filter entryKept).map (entryBind likeFields)) := by
  unfold Mysqlserver.buildWhereClause
  simp only [objectEntriesE, bind, Except.bind]
  unfold Mysqlserver.buildWhereClauseEntries
  match fs with
  | [] => rfl
  | kv :: rest =>
    rw [if_neg (by simp), whereStep_foldl]
    simp only [List.nil_append]
    rcases hE : List.filter entryKept (kv :: rest) with _ | ⟨e, es⟩ <;>
      simp [pure, Except.pure]

/-! Concrete table bindings from the repository's model classes, and small
reduction lemmas shared by the claim proofs. -/

/-- Table binding of the repository's `DiaryModel`
(`super('diaries', 'id')`; the sort key keeps the constructor default). -/
def diaryModel : Mysqlserver :=
  ⟨"diaries", "id", ""⟩

/-- Table binding of the repository's `MariaTestModel`
(`super('testtable', 'id', 'sort')`). -/
def testModel : Mysqlserver :=
  ⟨"testtable", "id", "sort"⟩

/-- On an object filter, `_buildWhereClause` succeeds with the clause built
from the object's entry list. -/
theorem buildWhereClause_jobj (fs : List (String × JsVal)) (lf : List String) :
    Mysqlserver.buildWhereClause (.jobj fs) lf =
      .ok (Mysqlserver.buildWhereClauseEntries fs lf) :=
  rfl

/-- On a live connection, `queryAsync` consults the driver and wraps its
failure once. -/
theorem queryAsync_some (drv : Driver) (sql : String) (vals : List JsVal) :
    Mysqlserver.queryAsync (some drv) sql vals = exWrap (drv sql vals) :=
  rfl

/-- An `exWrap` result is `ok` exactly when the wrapped computation is. -/
theorem exWrap_ok_iff {α : Type} (x : Except String α) (a : α) :
    exWrap x = .ok a ↔ x = .ok a := by
  cases x <;> simp [exWrap]

/-- An `exWrap` result is an error exactly when the wrapped computation is,
with the message wrapped. -/
theorem exWrap_error (x : Except String α) (e : String) (h : x = .error e) :
    exWrap x = .error (jsWrapErr e) := by
  subst h; rfl

/-- C8: the cache keys of the cached reads serialize the filter mapping in
its insertion order without normalizing it: the two filters
`{a: 1, b: 2}` and `{b: 2, a: 1}` hold the same entries (they are
permutations of one another) yet `findByFilterFromCacheAsync`'s key
(`findManyCacheKey`) and `findOneByFilterFromCacheAsync`'s key
(`findOneCacheKey`) differ between them, so these logically identical
queries miss each other's cache entries. -/
theorem C8_cache_key_not_normalized :
    List.Perm [("a", JsVal.jnum 1), ("b", JsVal.jnum 2)]
        [("b", JsVal.jnum 2), ("a", JsVal.jnum 1)] ∧
    Mysqlserver.findManyCacheKey diaryModel
        (.jobj [("a", .jnum 1), ("b", .jnum 2)]) "*" (.jstr "") ≠
      Mysqlserver.findManyCacheKey diaryModel
        (.jobj [("b", .jnum 2), ("a", .jnum 1)]) "*" (.jstr "") ∧
    Mysqlserver.findOneCacheKey diaryModel
        (.jobj [("a", .jnum 1), ("b", .jnum 2)]) "*" ≠
      Mysqlserver.findOneCacheKey diaryModel
        (.jobj [("b", .jnum 2), ("a", .jnum 1)]) "*" := by
  refine ⟨List.Perm.swap _ _ _, ?_, ?_⟩ <;> decide

/-- C9: the statement and binds issued by `upsertAsync` depend only on the
table binding and the data argument: for any non-empty object filters the
whole outcome is the driver's answer to `upsertSql` over the data's keys
with the data's values as binds, so two calls differing only in the filter
coincide for every driver. -/
theorem C9_upsert_filter_independent (m : Mysqlserver) (drv : Driver)
    (f1 f2 data : JsVal) (ffs1 ffs2 dfs : List (String × JsVal))
    (hf1 : f1 = .jobj ffs1) (hffs1 : ffs1 ≠ [])
    (hf2 : f2 = .jobj ffs2) (hffs2 : ffs2 ≠ [])
    (hd : data = .jobj dfs) (hdfs : dfs ≠ []) :
    Mysqlserver.upsertAsync m (some drv) f1 data =
      (match drv (Mysqlserver.upsertSql m (dfs.map Prod.fst)) (dfs.map Prod.snd) with
       | .ok result => .ok (result.jsGetField "affectedRows").jsGtZero
       | .error e => .error e) ∧
    Mysqlserver.upsertAsync m (some drv) f1 data =
      Mysqlserver.upsertAsync m (some drv) f2 data := by
  subst hf1 hf2 hd
  constructor
  · unfold Mysqlserver.upsertAsync
    simp [objectKeysE, objectValuesE, objectEntriesE, JsVal.jsTypeof,
      JsVal.jsIsArray, bind, Except.bind, Except.map, List.length_eq_zero,
      List.map_eq_nil_iff, hffs1, hdfs]
  · unfold Mysqlserver.upsertAsync
    simp [objectKeysE, objectValuesE, objectEntriesE, JsVal.jsTypeof,
      JsVal.jsIsArray, bind, Except.bind, Except.map, List.length_eq_zero,
      List.map_eq_nil_iff, hffs1, hffs2, hdfs]

/-- Witness for C9 at the repository's diaries table: filters `{id: 1}` and
`{id: 2}` with data `{title: 'x'}` produce identical outcomes, equal to the
driver's answer on the data-only statement. -/
theorem C9_upsert_filter_independent_witness :
    Mysqlserver.upsertAsync diaryModel
        (some (fun sql _ => .error sql)) (.jobj [("id", .jnum 1)])
        (.jobj [("title", .jstr "x")]) =
      Mysqlserver.upsertAsync diaryModel
        (some (fun sql _ => .error sql)) (.jobj [("id", .jnum 2)])
        (.jobj [("title", .jstr "x")]) :=
  (C9_upsert_filter_independent diaryModel (fun sql _ => .error sql)
    (.jobj [("id", .jnum 1)]) (.jobj [("id", .jnum 2)])
    (.jobj [("title", .jstr "x")])
    [("id", .jnum 1)] [("id", .jnum 2)] [("title", .jstr "x")]
    rfl (List.cons_ne_nil _ _) rfl (List.cons_ne_nil _ _) rfl
    (List.cons_ne_nil _ _)).2

/-- C2: for an object filter, `page ≥ 1` and `pageSize > 0`,
`findByPageAsync` issues the data query with `LIMIT ? OFFSET ?` bound to
`pageSize` and `(page−1)×pageSize` after the predicate's binds, and a count
query over the same WHERE clause and bound values; the returned object
carries the request's page and pageSize, `totalPages =
Math.ceil(totalCount / pageSize)`, and a `totalCount` equal to what
`countByFilterAsync` returns for the same filter and like-fields, provided
the backend answers the two (semantically equivalent) count statements —
`COUNT(*)` here, `COUNT(primaryField)` there — identically. -/
theorem C2_find_by_page (m : Mysqlserver) (drv : Driver) (filter : JsVal)
    (fs : List (String × JsVal)) (likeFields : List String) (select : String)
    (page pageSize : Int) (sort : JsVal) (r : PageResult)
    (hfil : filter = .jobj fs) (hpage : 1 ≤ page) (hps : 0 < pageSize)
    (hagree :
      drv (Mysqlserver.pageCountSql m
          (Mysqlserver.buildWhereClauseEntries fs likeFields).1)
        (Mysqlserver.buildWhereClauseEntries fs likeFields).2 =
      drv (Mysqlserver.countSql m
          (Mysqlserver.buildWhereClauseEntries fs likeFields).1)
        (Mysqlserver.buildWhereClauseEntries fs likeFields).2)
    (hrun : Mysqlserver.findByPageAsync m (some drv) filter likeFields select
        page pageSize sort = .ok r) :
    (∃ obc, Mysqlserver.buildOrderByClause m sort = .ok obc ∧
       drv (Mysqlserver.pageDataSql m select
           (Mysqlserver.buildWhereClauseEntries fs likeFields).1 obc)
         ((Mysqlserver.buildWhereClauseEntries fs likeFields).2 ++
           [.jnum pageSize, .jnum ((page - 1) * pageSize)]) = .ok r.documents) ∧
    Mysqlserver.countByFilterAsync m (some drv) filter likeFields =
      .ok (.jnum r.totalCount) ∧
    r.totalPages = mathCeilDiv r.totalCount pageSize ∧
    r.page = page ∧ r.pageSize = pageSize := by
  subst hfil
  unfold Mysqlserver.findByPageAsync at hrun
  rw [exWrap_ok_iff, buildWhereClause_jobj] at hrun
  rcases hob : Mysqlserver.buildOrderByClause m sort with e | obc
  · simp only [bind, Except.bind, hob] at hrun
    exact Except.noConfusion hrun
  · simp only [bind, Except.bind, hob, queryAsync_some] at hrun
    rcases hdata : drv (Mysqlserver.pageDataSql m select
        (Mysqlserver.buildWhereClauseEntries fs likeFields).1 obc)
        ((Mysqlserver.buildWhereClauseEntries fs likeFields).2 ++
          [.jnum pageSize, .jnum ((page - 1) * pageSize)]) with e | docs
    · simp only [hdata, exWrap] at hrun
      exact Except.noConfusion hrun
    · simp only [hdata, exWrap] at hrun
      rcases hcnt : drv (Mysqlserver.pageCountSql m
          (Mysqlserver.buildWhereClauseEntries fs likeFields).1)
          (Mysqlserver.buildWhereClauseEntries fs likeFields).2 with e | cres
      · simp only [hcnt, exWrap] at hrun
        exact Except.noConfusion hrun
      · simp only [hcnt, exWrap, pure, Except.pure, Except.ok.injEq] at hrun
        subst hrun
        refine ⟨⟨obc, rfl, hdata⟩, ?_, rfl, rfl, rfl⟩
        unfold Mysqlserver.countByFilterAsync
        rw [buildWhereClause_jobj]
        simp only [JsVal.jsTypeof, JsVal.jsIsArray, bind, Except.bind,
          queryAsync_some, bne_self_eq_false, Bool.false_or, if_neg]
        rw [← hagree, hcnt]
        simp only [exWrap]
        cases hlen : cres.jsLen.jsGtZero <;> simp [hlen, pure, Except.pure]

/-- Witness for C2: a driver answering every statement with the single row
`{CNT: 7}`; at page 2 of size 3 on the diaries table with filter `{a: 1}`,
the run succeeds and `countByFilterAsync` agrees with the page result's
total count of 7. -/
theorem C2_find_by_page_witness :
    Mysqlserver.countByFilterAsync diaryModel
        (some (fun _ _ => .ok (.jarr [.jobj [("CNT", .jnum 7)]])))
        (.jobj [("a", .jnum 1)]) [] = .ok (.jnum 7) :=
  (C2_find_by_page diaryModel (fun _ _ => .ok (.jarr [.jobj [("CNT", .jnum 7)]]))
    (.jobj [("a", .jnum 1)]) [("a", .jnum 1)] [] "*" 2 3 (.jobj [])
    ⟨.jarr [.jobj [("CNT", .jnum 7)]], 2, 3, 7, 3⟩
    rfl (by decide) (by decide) rfl rfl).2.1

/-- C7: `insertAsync` rejects — identically for every connection, hence
before any I/O — a data argument that is an empty object, `null`, an array,
or not an object; for a non-empty plain-object data argument the outcome is
the driver's answer to the generated INSERT over the data's keys with the
data's values as binds: the `insertId` reported by the execution layer on a
truthy result, the sentinel `false` on a falsy one, and a doubly-wrapped
re-throw of an execution failure. -/
theorem C7_insert (m : Mysqlserver) (conn : Conn) (drv : Driver) (bad : JsVal)
    (hbad : bad = .jobj [] ∨ bad = .jnull ∨ bad.jsTypeof ≠ "object" ∨
      bad.jsIsArray)
    (dfs : List (String × JsVal)) (hdfs : dfs ≠ []) :
    (∃ e, Mysqlserver.insertAsync m conn bad = .error e) ∧
    Mysqlserver.insertAsync m (some drv) (.jobj dfs) =
      (match drv (Mysqlserver.insertSql m (dfs.map Prod.fst)) (dfs.map Prod.snd) with
       | .error e => .error (jsWrapErr (jsWrapErr e))
       | .ok result =>
         .ok (if result.jsTruthy then result.jsGetField "insertId"
              else .jbool false)) := by
  constructor
  · rcases hbad with h | h | h | h
    · exact ⟨"Data object cannot be empty", by subst h; rfl⟩
    · exact ⟨"TypeError: Cannot convert undefined or null to object", by
        subst h; rfl⟩
    · refine ⟨"Data must be an object", ?_⟩
      unfold Mysqlserver.insertAsync
      simp [bne_iff_ne, h]
    · refine ⟨"Data must be an object", ?_⟩
      unfold Mysqlserver.insertAsync
      simp [h]
  · unfold Mysqlserver.insertAsync
    simp only [JsVal.jsTypeof, JsVal.jsIsArray, objectKeysE, objectValuesE,
      objectEntriesE, Except.map, bind, Except.bind, bne_self_eq_false,
      Bool.false_or, Bool.or_self, queryAsync_some]
    rw [if_neg (by simp), if_neg (show ¬(List.map Prod.fst dfs).length = 0 by
      simpa using hdfs)]
    rcases hq : drv (Mysqlserver.insertSql m (dfs.map Prod.fst))
        (dfs.map Prod.snd) with e | result
    · simp [hq, exWrap]
    · simp only [hq, exWrap]
      cases ht : result.jsTruthy <;> simp [ht, pure, Except.pure]

/-- Witness for C7: an execution layer reporting `insertId = 42` — the empty
data object is rejected with an error, and `{title: 'x'}` inserts and
returns 42. -/
theorem C7_insert_witness :
    (∃ e, Mysqlserver.insertAsync diaryModel
        (some (fun _ _ =>
          .ok (.jobj [("affectedRows", .jnum 1), ("insertId", .jnum 42)])))
        (.jobj []) = .error e) ∧
    Mysqlserver.insertAsync diaryModel
        (some (fun _ _ =>
          .ok (.jobj [("affectedRows", .jnum 1), ("insertId", .jnum 42)])))
        (.jobj [("title", .jstr "x")]) = .ok (.jnum 42) :=
  C7_insert diaryModel
    (some (fun _ _ =>
      .ok (.jobj [("affectedRows", .jnum 1), ("insertId", .jnum 42)])))
    (fun _ _ => .ok (.jobj [("affectedRows", .jnum 1), ("insertId", .jnum 42)]))
    (.jobj []) (Or.inl rfl) [("title", .jstr "x")] (List.cons_ne_nil _ _)

/-- C5 is refuted on the empty-object filter: `{}` is neither a non-empty
mapping nor a non-empty string, yet `updateByFilterAsync` does not reject it
before I/O.  First two conjuncts: under a driver that fails with the
statement text it received, the reported text is the dangling-`WHERE`
statement `` UPDATE `diaries` SET `title` = ? WHERE `` — so a statement was
handed to the execution layer; last conjunct: under a driver reporting one
affected row the call even returns `true` instead of throwing a validation
error. -/
theorem C5_counterexample :
    Mysqlserver.updateByFilterAsync diaryModel (some (fun sql _ => .error sql))
        (.jobj []) (.jobj [("title", .jstr "x")]) =
      .error (jsWrapErr (jsWrapErr (Mysqlserver.updateSql diaryModel
        (Mysqlserver.eqSetClause ["title"]) (Mysqlserver.eqWhereClause [])))) ∧
    jsWrapErr (jsWrapErr (Mysqlserver.updateSql diaryModel
        (Mysqlserver.eqSetClause ["title"]) (Mysqlserver.eqWhereClause []))) =
      "Error: Error: UPDATE `diaries` SET `title` = ? WHERE " ∧
    Mysqlserver.updateByFilterAsync diaryModel
        (some (fun _ _ => .ok (.jobj [("affectedRows", .jnum 1)])))
        (.jobj []) (.jobj [("title", .jstr "x")]) = .ok true :=
  ⟨rfl, by decide, by rfl⟩

/-- C5 as amended: `updateByFilterAsync` returns true iff the execution
layer reports at least one affected row; it throws — identically for every
connection, hence before any I/O — on empty/array/`null`/non-object data
and on a filter that is neither an object nor a string with non-blank trim;
but an object filter is never checked for emptiness: any object filter
(including `{}`) produces the ANDed-equality statement, whose binds append
the filter's values after the data's values, and a raw string filter is
embedded verbatim with no `WHERE ` prefix added. -/
theorem C5_update_amended (m : Mysqlserver) (conn : Conn) (drv : Driver)
    (f badData : JsVal)
    (hbd : badData = .jobj [] ∨ badData = .jnull ∨
      badData.jsTypeof ≠ "object" ∨ badData.jsIsArray)
    (badFilter : JsVal)
    (hbf1 : badFilter.jsTypeof ≠ "object" ∨ badFilter.jsIsArray)
    (hbf2 : badFilter.jsTypeof ≠ "string" ∨ jsTrim (jsToString badFilter) = "")
    (ffs dfs : List (String × JsVal)) (hdfs : dfs ≠ [])
    (s : String) (hs : jsTrim s ≠ "") :
    (∃ e, Mysqlserver.updateByFilterAsync m conn f badData = .error e) ∧
    (∃ e, Mysqlserver.updateByFilterAsync m conn badFilter (.jobj dfs) = .error e) ∧
    Mysqlserver.updateByFilterAsync m (some drv) (.jobj ffs) (.jobj dfs) =
      (match drv (Mysqlserver.updateSql m (Mysqlserver.eqSetClause (dfs.map Prod.fst))
          (Mysqlserver.eqWhereClause (ffs.map Prod.fst)))
          (dfs.map Prod.snd ++ ffs.map Prod.snd) with
       | .error e => .error (jsWrapErr (jsWrapErr e))
       | .ok result => .ok (result.jsGetField "affectedRows").jsGtZero) ∧
    Mysqlserver.updateByFilterAsync m (some drv) (.jstr s) (.jobj dfs) =
      (match drv (Mysqlserver.updateSql m (Mysqlserver.eqSetClause (dfs.map Prod.fst)) s)
          (dfs.map Prod.snd) with
       | .error e => .error (jsWrapErr (jsWrapErr e))
       | .ok result => .ok (result.jsGetField "affectedRows").jsGtZero) := by
  have hlen : ¬(List.map Prod.fst dfs).length = 0 := by simpa using hdfs
  refine ⟨?_, ?_, ?_, ?_⟩
  · rcases hbd with h | h | h | h
    · exact ⟨jsWrapErr "Data must be an object", by subst h; rfl⟩
    · exact ⟨jsWrapErr "TypeError: Cannot convert undefined or null to object",
        by subst h; rfl⟩
    · refine ⟨jsWrapErr "Data must be an object", ?_⟩
      unfold Mysqlserver.updateByFilterAsync
      simp [bne_iff_ne, h, exWrap]
    · refine ⟨jsWrapErr "Data must be an object", ?_⟩
      unfold Mysqlserver.updateByFilterAsync
      simp [h, exWrap]
  · refine ⟨jsWrapErr "A valid filter condition must be provided.", ?_⟩
    unfold Mysqlserver.updateByFilterAsync
    simp only [objectKeysE, objectValuesE, objectEntriesE, Except.map,
      bind, Except.bind]
    rw [if_neg (by simp [JsVal.jsTypeof, JsVal.jsIsArray]), if_neg hlen]
    have hc1 : (badFilter.jsTypeof == "object" && !badFilter.jsIsArray) = false := by
      rcases hbf1 with h | h
      · simp [beq_iff_eq, h]
      · simp [h]
    have hc2 : (badFilter.jsTypeof == "string" &&
        jsTrim (jsToString badFilter) != "") = false := by
      rcases hbf2 with h | h
      · simp [beq_iff_eq, h]
      · simp [h]
    rw [if_neg (by simp [hc1]), if_neg (by simp [hc2])]
    rfl
  · unfold Mysqlserver.updateByFilterAsync
    simp only [objectKeysE, objectValuesE, objectEntriesE, Except.map,
      bind, Except.bind, queryAsync_some]
    rw [if_neg (by simp [JsVal.jsTypeof, JsVal.jsIsArray]), if_neg hlen,
      if_pos (by simp [JsVal.jsTypeof, JsVal.jsIsArray])]
    rcases hq : drv (Mysqlserver.updateSql m
        (Mysqlserver.eqSetClause (dfs.map Prod.fst))
        (Mysqlserver.eqWhereClause (ffs.map Prod.fst)))
        (dfs.map Prod.snd ++ ffs.map Prod.snd) with e | result <;>
      simp [hq, exWrap, pure, Except.pure]
  · unfold Mysqlserver.updateByFilterAsync
    simp only [objectKeysE, objectValuesE, objectEntriesE, Except.map,
      bind, Except.bind, queryAsync_some]
    rw [if_neg (by simp [JsVal.jsTypeof, JsVal.jsIsArray]), if_neg hlen,
      if_neg (by simp [JsVal.jsTypeof]),
      if_pos (by simp [JsVal.jsTypeof, jsToString, hs])]
    rcases hq : drv (Mysqlserver.updateSql m
        (Mysqlserver.eqSetClause (dfs.map Prod.fst)) s)
        (dfs.map Prod.snd) with e | result <;>
      simp [jsToString, hq, exWrap, pure, Except.pure]

/-- Witness for C5's amended statement at concrete inputs: data `{}` and the
filter `5` are rejected, while filter `{id: 1}` and the raw string filter
`id = 1` run the statement and return `true` under a driver reporting one
affected row. -/
theorem C5_update_amended_witness :
    (∃ e, Mysqlserver.updateByFilterAsync diaryModel
        (some (fun _ _ => .ok (.jobj [("affectedRows", .jnum 1)])))
        (.jstr "w") (.jobj []) = .error e) ∧
    (∃ e, Mysqlserver.updateByFilterAsync diaryModel
        (some (fun _ _ => .ok (.jobj [("affectedRows", .jnum 1)])))
        (.jnum 5) (.jobj [("title", .jstr "x")]) = .error e) ∧
    Mysqlserver.updateByFilterAsync diaryModel
        (some (fun _ _ => .ok (.jobj [("affectedRows", .jnum 1)])))
        (.jobj [("id", .jnum 1)]) (.jobj [("title", .jstr "x")]) = .ok true ∧
    Mysqlserver.updateByFilterAsync diaryModel
        (some (fun _ _ => .ok (.jobj [("affectedRows", .jnum 1)])))
        (.jstr "id = 1") (.jobj [("title", .jstr "x")]) = .ok true :=
  C5_update_amended diaryModel
    (some (fun _ _ => .ok (.jobj [("affectedRows", .jnum 1)])))
    (fun _ _ => .ok (.jobj [("affectedRows", .jnum 1)]))
    (.jstr "w") (.jobj []) (Or.inl rfl)
    (.jnum 5) (Or.inl (by decide)) (Or.inl (by decide))
    [("id", .jnum 1)] [("title", .jstr "x")] (List.cons_ne_nil _ _)
    "id = 1" (by decide)

/-- C6 is refuted on raw string filters: with the same predicate string
`id = 1` and a driver that fails with the statement text it received,
`deleteByFilterAsync` prefixes `WHERE ` to the string while
`updateByFilterAsync` embeds it verbatim with no prefix — the two
operations do not incorporate a raw string filter into the generated
statement in the same way (last two conjuncts spell out the two differing
statement texts). -/
theorem C6_counterexample :
    Mysqlserver.deleteByFilterAsync diaryModel (some (fun sql _ => .error sql))
        (.jstr "id = 1") =
      .error (jsWrapErr (jsWrapErr
        (Mysqlserver.deleteSql diaryModel ("WHERE " ++ "id = 1")))) ∧
    Mysqlserver.updateByFilterAsync diaryModel (some (fun sql _ => .error sql))
        (.jstr "id = 1") (.jobj [("title", .jstr "x")]) =
      .error (jsWrapErr (jsWrapErr (Mysqlserver.updateSql diaryModel
        (Mysqlserver.eqSetClause ["title"]) "id = 1"))) ∧
    Mysqlserver.deleteSql diaryModel ("WHERE " ++ "id = 1") =
      "DELETE FROM `diaries` WHERE id = 1" ∧
    Mysqlserver.updateSql diaryModel (Mysqlserver.eqSetClause ["title"]) "id = 1" =
      "UPDATE `diaries` SET `title` = ? id = 1" :=
  ⟨rfl, rfl, by decide, by decide⟩

/-- C6 as amended: for object filters, update and delete build the same
`WHERE`-prefixed ANDed escaped-equality predicate over the filter's keys
with the filter's values bound positionally (delete binds exactly them,
update appends them after the data values); for a raw string filter with
non-blank trim, delete embeds the string after an explicit `WHERE ` prefix
while update embeds it verbatim; delete returns true iff the execution
layer reports at least one affected row. -/
theorem C6_delete_update_contract (m : Mysqlserver) (drv : Driver)
    (ffs dfs : List (String × JsVal)) (hdfs : dfs ≠ [])
    (s : String) (hs : jsTrim s ≠ "") :
    Mysqlserver.deleteByFilterAsync m (some drv) (.jobj ffs) =
      (match drv (Mysqlserver.deleteSql m
          (Mysqlserver.eqWhereClause (ffs.map Prod.fst))) (ffs.map Prod.snd) with
       | .error e => .error (jsWrapErr (jsWrapErr e))
       | .ok result => .ok (result.jsGetField "affectedRows").jsGtZero) ∧
    Mysqlserver.updateByFilterAsync m (some drv) (.jobj ffs) (.jobj dfs) =
      (match drv (Mysqlserver.updateSql m (Mysqlserver.eqSetClause (dfs.map Prod.fst))
          (Mysqlserver.eqWhereClause (ffs.map Prod.fst)))
          (dfs.map Prod.snd ++ ffs.map Prod.snd) with
       | .error e => .error (jsWrapErr (jsWrapErr e))
       | .ok result => .ok (result.jsGetField "affectedRows").jsGtZero) ∧
    Mysqlserver.deleteByFilterAsync m (some drv) (.jstr s) =
      (match drv (Mysqlserver.deleteSql m ("WHERE " ++ s)) [] with
       | .error e => .error (jsWrapErr (jsWrapErr e))
       | .ok result => .ok (result.jsGetField "affectedRows").jsGtZero) ∧
    Mysqlserver.updateByFilterAsync m (some drv) (.jstr s) (.jobj dfs) =
      (match drv (Mysqlserver.updateSql m
          (Mysqlserver.eqSetClause (dfs.map Prod.fst)) s) (dfs.map Prod.snd) with
       | .error e => .error (jsWrapErr (jsWrapErr e))
       | .ok result => .ok (result.jsGetField "affectedRows").jsGtZero) := by
  have hlen : ¬(List.map Prod.fst dfs).length = 0 := by simpa using hdfs
  refine ⟨?_, ?_, ?_, ?_⟩
  · unfold Mysqlserver.deleteByFilterAsync
    simp only [objectKeysE, objectValuesE, objectEntriesE, Except.map,
      bind, Except.bind, queryAsync_some]
    rw [if_pos (by simp [JsVal.jsTypeof, JsVal.jsIsArray])]
    rcases hq : drv (Mysqlserver.deleteSql m
        (Mysqlserver.eqWhereClause (ffs.map Prod.fst))) (ffs.map Prod.snd)
      with e | result <;> simp [hq, exWrap, pure, Except.pure]
  · unfold Mysqlserver.updateByFilterAsync
    simp only [objectKeysE, objectValuesE, objectEntriesE, Except.map,
      bind, Except.bind, queryAsync_some]
    rw [if_neg (by simp [JsVal.jsTypeof, JsVal.jsIsArray]), if_neg hlen,
      if_pos (by simp [JsVal.jsTypeof, JsVal.jsIsArray])]
    rcases hq : drv (Mysqlserver.updateSql m
        (Mysqlserver.eqSetClause (dfs.map Prod.fst))
        (Mysqlserver.eqWhereClause (ffs.map Prod.fst)))
        (dfs.map Prod.snd ++ ffs.map Prod.snd) with e | result <;>
      simp [hq, exWrap, pure, Except.pure]
  · unfold Mysqlserver.deleteByFilterAsync
    simp only [objectKeysE, objectValuesE, objectEntriesE, Except.map,
      bind, Except.bind, queryAsync_some]
    rw [if_neg (by simp [JsVal.jsTypeof]),
      if_pos (by simp [JsVal.jsTypeof, jsToString, hs])]
    rcases hq : drv (Mysqlserver.deleteSql m ("WHERE " ++ s)) [] with e | result <;>
      simp [jsToString, hq, exWrap, pure, Except.pure]
  · unfold Mysqlserver.updateByFilterAsync
    simp only [objectKeysE, objectValuesE, objectEntriesE, Except.map,
      bind, Except.bind, queryAsync_some]
    rw [if_neg (by simp [JsVal.jsTypeof, JsVal.jsIsArray]), if_neg hlen,
      if_neg (by simp [JsVal.jsTypeof]),
      if_pos (by simp [JsVal.jsTypeof, jsToString, hs])]
    rcases hq : drv (Mysqlserver.updateSql m
        (Mysqlserver.eqSetClause (dfs.map Prod.fst)) s)
        (dfs.map Prod.snd) with e | result <;>
      simp [jsToString, hq, exWrap, pure, Except.pure]

/-- Witness for C6's amended statement: under a driver reporting one
affected row, delete and update succeed on the object filter `{id: 1}` and
on the raw string filter `id = 1`, returning `true` each time. -/
theorem C6_delete_update_contract_witness :
    Mysqlserver.deleteByFilterAsync diaryModel
        (some (fun _ _ => .ok (.jobj [("affectedRows", .jnum 1)])))
        (.jobj [("id", .jnum 1)]) = .ok true ∧
    Mysqlserver.updateByFilterAsync diaryModel
        (some (fun _ _ => .ok (.jobj [("affectedRows", .jnum 1)])))
        (.jobj [("id", .jnum 1)]) (.jobj [("title", .jstr "x")]) = .ok true ∧
    Mysqlserver.deleteByFilterAsync diaryModel
        (some (fun _ _ => .ok (.jobj [("affectedRows", .jnum 1)])))
        (.jstr "id = 1") = .ok true ∧
    Mysqlserver.updateByFilterAsync diaryModel
        (some (fun _ _ => .ok (.jobj [("affectedRows", .jnum 1)])))
        (.jstr "id = 1") (.jobj [("title", .jstr "x")]) = .ok true :=
  C6_delete_update_contract diaryModel
    (fun _ _ => .ok (.jobj [("affectedRows", .jnum 1)]))
    [("id", .jnum 1)] [("title", .jstr "x")] (List.cons_ne_nil _ _)
    "id = 1" (by decide)

/-- Insert-or-replace followed by lookup of the same key finds the new
value. -/
theorem alistGet_alistPut {α : Type} (l : List (String × α)) (k : String) (v : α) :
    alistGet (alistPut l k v) k = some v := by
  unfold alistGet alistPut
  induction l with
  | nil => simp
  | cons kv rest ih =>
    by_cases h : kv.1 = k <;> simp [h, ih]

/-- C3 is refuted on the store-failure path: with a healthy `expire` but a
rejecting `set`, a cache miss whose fetch produced the truthy value `7`
makes `getOrSetCache` return `null` — not the fresh fetch result — because
the un-awaited `set` promise's rejection escapes `setAsync`'s `catch` and is
swallowed only by `getOrSetCache`'s own `catch`, which yields `null`. -/
theorem C3_counterexample :
    Redisserver.getOrSetCache "dev" "k" (.ok (.jnum 7)) 60
        ⟨[], [], false, true, false⟩ =
      (JsVal.jnull, ⟨[], [], false, true, false⟩) ∧
    JsVal.jnull ≠ JsVal.jnum 7 :=
  ⟨rfl, by simp⟩

/-- C3 as amended: `getOrSetCache` returns the deserialized cached value on
a truthy stored string; on a miss it invokes the fetch, and a truthy fetch
result is serialized and stored under the namespaced key with the given
expiration and returned; the fresh result is still returned when the
`expire` step fails (that failure is swallowed inside `setAsync`), but when
the `set` operation itself fails, its rejection escapes the un-awaited
promise and `getOrSetCache` returns `null` instead of the fresh result. -/
theorem C3_get_or_set_cache_amended (env key : String)
    (fetch : Except String JsVal) (ttl : Nat) (st : RedisSt) :
    (∀ s v, Redisserver.getAsync env key st = .jstr s → s ≠ "" →
      jsonParse s = .ok v →
      Redisserver.getOrSetCache env key fetch ttl st = (v, st)) ∧
    (∀ v, (Redisserver.getAsync env key st).jsTruthy = false →
      fetch = .ok v → v.jsTruthy →
      st.setFail = false → st.expireFail = false → 0 < ttl →
      Redisserver.getOrSetCache env key fetch ttl st =
        (v, { st with
          store := alistPut st.store (env ++ "_" ++ key) (jsonStringify v),
          ttls := alistPut st.ttls (env ++ "_" ++ key) ttl })) ∧
    (∀ v, (Redisserver.getAsync env key st).jsTruthy = false →
      fetch = .ok v → v.jsTruthy →
      st.setFail = false → st.expireFail = true →
      Redisserver.getOrSetCache env key fetch ttl st =
        (v, { st with
          store := alistPut st.store (env ++ "_" ++ key) (jsonStringify v) })) ∧
    (∀ v, (Redisserver.getAsync env key st).jsTruthy = false →
      fetch = .ok v → v.jsTruthy →
      st.setFail = true → st.expireFail = false →
      (Redisserver.getOrSetCache env key fetch ttl st).1 = .jnull) := by
  refine ⟨?_, ?_, ?_, ?_⟩
  · intro s v hg hs hparse
    unfold Redisserver.getOrSetCache
    rw [hg]
    simp [JsVal.jsTruthy, hs, hparse]
  · intro v hmiss hfetch hv hsetF hexpF httl
    unfold Redisserver.getOrSetCache
    simp only [hmiss, Bool.not_false, if_true, hfetch, hv]
    unfold Redisserver.setAsync Redisserver.clientSet Redisserver.clientExpire
    simp only [hsetF, hexpF, Bool.false_eq_true, if_false, if_pos httl,
      alistGet_alistPut]
  · intro v hmiss hfetch hv hsetF hexpF
    unfold Redisserver.getOrSetCache
    simp only [hmiss, Bool.not_false, if_true, hfetch, hv]
    unfold Redisserver.setAsync Redisserver.clientSet Redisserver.clientExpire
    by_cases httl : ttl > 0 <;>
      simp [hsetF, hexpF, httl]
  · intro v hmiss hfetch hv hsetF hexpF
    unfold Redisserver.getOrSetCache
    simp only [hmiss, Bool.not_false, if_true, hfetch, hv]
    unfold Redisserver.setAsync Redisserver.clientSet Redisserver.clientExpire
    by_cases httl : ttl > 0
    · simp only [hsetF, hexpF, if_true, Bool.false_eq_true, if_false,
        if_pos httl]
      cases halist : alistGet st.store (env ++ "_" ++ key) <;> simp [halist]
    · simp [hsetF, hexpF, httl]

/-- Witness for C3's amended statement: a hit on stored `"9"` returns 9 and
leaves the state alone; a healthy miss returns the fresh 7 and stores it
under `dev_k` with TTL 60; an expire failure still returns the fresh 7 (the
value is stored, no TTL is recorded); a set failure yields `null`. -/
theorem C3_get_or_set_cache_amended_witness :
    Redisserver.getOrSetCache "dev" "k" (.ok (.jnum 7)) 60
        ⟨[("dev_k", "9")], [], false, false, false⟩ =
      (.jnum 9, ⟨[("dev_k", "9")], [], false, false, false⟩) ∧
    Redisserver.getOrSetCache "dev" "k" (.ok (.jnum 7)) 60 RedisSt.empty =
      (.jnum 7, ⟨[("dev_k", "7")], [("dev_k", 60)], false, false, false⟩) ∧
    Redisserver.getOrSetCache "dev" "k" (.ok (.jnum 7)) 60
        ⟨[], [], false, false, true⟩ =
      (.jnum 7, ⟨[("dev_k", "7")], [], false, false, true⟩) ∧
    (Redisserver.getOrSetCache "dev" "k" (.ok (.jnum 7)) 60
        ⟨[], [], false, true, false⟩).1 = .jnull :=
  ⟨(C3_get_or_set_cache_amended "dev" "k" (.ok (.jnum 7)) 60
      ⟨[("dev_k", "9")], [], false, false, false⟩).1 "9" (.jnum 9) rfl
      (by decide) rfl,
   (C3_get_or_set_cache_amended "dev" "k" (.ok (.jnum 7)) 60
      RedisSt.empty).2.1 (.jnum 7) rfl rfl rfl rfl rfl (by decide),
   (C3_get_or_set_cache_amended "dev" "k" (.ok (.jnum 7)) 60
      ⟨[], [], false, false, true⟩).2.2.1 (.jnum 7) rfl rfl rfl rfl rfl,
   (C3_get_or_set_cache_amended "dev" "k" (.ok (.jnum 7)) 60
      ⟨[], [], false, true, false⟩).2.2.2 (.jnum 7) rfl rfl rfl rfl rfl⟩

/-- C4 is wrong about the code (the code is wrong about itself): a primary
store failure during the uncached read is re-thrown (first conjunct), but
the same failure inside the cached variant's fetch callback is caught by
`getOrSetCache`'s blanket `catch` on a cache miss and downgraded to a
successful `null` result (second conjunct), contradicting the re-throw
policy and the functions' own `@throws` documentation. -/
theorem C4_cached_read_downgrades_execution_error :
    Mysqlserver.findByFilterAsync diaryModel
        (some (fun _ _ => .error "db down"))
        (.jobj [("id", .jnum 1)]) [] "*" (.jstr "") =
      .error (jsWrapErr (jsWrapErr "db down")) ∧
    Mysqlserver.findByFilterFromCacheAsync diaryModel
        (some (fun _ _ => .error "db down"))
        (.jobj [("id", .jnum 1)]) [] "*" (.jstr "") 60 "dev" RedisSt.empty =
      .ok (.jnull, RedisSt.empty) :=
  ⟨rfl, rfl⟩

/-- On a truthy stored string, `getOrSetCache` never consults the fetch
callback, so any two callbacks give the same outcome. -/
theorem getOrSetCache_hit (env key : String) (f1 f2 : Except String JsVal)
    (ttl : Nat) (st : RedisSt) (s : String)
    (hg : Redisserver.getAsync env key st = .jstr s) (hs : s ≠ "") :
    Redisserver.getOrSetCache env key f1 ttl st =
      Redisserver.getOrSetCache env key f2 ttl st := by
  unfold Redisserver.getOrSetCache
  rw [hg]
  simp [JsVal.jsTruthy, hs]

/-- C10: the cache keys of `findOneByFilterFromCacheAsync` and
`countByFilterFromCacheAsync` do not mention the like-field list (and the
count key mentions no column selection at all), so on a cache hit two calls
with the same filter but different like-field lists — and even different
connections — return the same cached result: a result computed under one
like-field set answers the logically different query under another. -/
theorem C10_cache_key_omits_like_fields (m : Mysqlserver) (conn1 conn2 : Conn)
    (fs : List (String × JsVal)) (lf1 lf2 : List String) (select : String)
    (ttl : Nat) (env : String) (st : RedisSt) (s1 s2 : String)
    (h1 : Redisserver.getAsync env
      (Mysqlserver.findOneCacheKey m (.jobj fs) select) st = .jstr s1)
    (hs1 : s1 ≠ "")
    (h2 : Redisserver.getAsync env
      (Mysqlserver.countCacheKey m (.jobj fs)) st = .jstr s2)
    (hs2 : s2 ≠ "") :
    Mysqlserver.findOneByFilterFromCacheAsync m conn1 (.jobj fs) lf1 select ttl env st =
      Mysqlserver.findOneByFilterFromCacheAsync m conn2 (.jobj fs) lf2 select ttl env st ∧
    Mysqlserver.countByFilterFromCacheAsync m conn1 (.jobj fs) lf1 ttl env st =
      Mysqlserver.countByFilterFromCacheAsync m conn2 (.jobj fs) lf2 ttl env st := by
  constructor
  · unfold Mysqlserver.findOneByFilterFromCacheAsync
    rw [if_neg (by simp [JsVal.jsTypeof, JsVal.jsIsArray])]
    rw [if_neg (by simp [JsVal.jsTypeof, JsVal.jsIsArray])]
    exact congrArg Except.ok (getOrSetCache_hit env _ _ _ ttl st s1 h1 hs1)
  · unfold Mysqlserver.countByFilterFromCacheAsync
    rw [if_neg (by simp [JsVal.jsTypeof, JsVal.jsIsArray])]
    rw [if_neg (by simp [JsVal.jsTypeof, JsVal.jsIsArray])]
    exact congrArg Except.ok (getOrSetCache_hit env _ _ _ ttl st s2 h2 hs2)

/-- Witness for C10: with both cache keys for filter `{id: 1}` populated,
the cached one-row read and the cached count agree between a call with no
like-fields on a working connection and a call with `id` as a like-field on
a failing connection. -/
theorem C10_cache_key_omits_like_fields_witness :
    Mysqlserver.findOneByFilterFromCacheAsync diaryModel
        (some (fun _ _ => .ok (.jarr [.jobj [("id", .jnum 1)]])))
        (.jobj [("id", .jnum 1)]) [] "*" 60 "dev"
        ⟨[("dev" ++ "_" ++ Mysqlserver.findOneCacheKey diaryModel
            (.jobj [("id", .jnum 1)]) "*", "1"),
          ("dev" ++ "_" ++ Mysqlserver.countCacheKey diaryModel
            (.jobj [("id", .jnum 1)]), "2")], [], false, false, false⟩ =
      Mysqlserver.findOneByFilterFromCacheAsync diaryModel
        (some (fun _ _ => .error "down"))
        (.jobj [("id", .jnum 1)]) ["id"] "*" 60 "dev"
        ⟨[("dev" ++ "_" ++ Mysqlserver.findOneCacheKey diaryModel
            (.jobj [("id", .jnum 1)]) "*", "1"),
          ("dev" ++ "_" ++ Mysqlserver.countCacheKey diaryModel
            (.jobj [("id", .jnum 1)]), "2")], [], false, false, false⟩ :=
  (C10_cache_key_omits_like_fields diaryModel
    (some (fun _ _ => .ok (.jarr [.jobj [("id", .jnum 1)]])))
    (some (fun _ _ => .error "down"))
    [("id", .jnum 1)] [] ["id"] "*" 60 "dev"
    ⟨[("dev" ++ "_" ++ Mysqlserver.findOneCacheKey diaryModel
        (.jobj [("id", .jnum 1)]) "*", "1"),
      ("dev" ++ "_" ++ Mysqlserver.countCacheKey diaryModel
        (.jobj [("id", .jnum 1)]), "2")], [], false, false, false⟩
    "1" "2" rfl (by decide) rfl (by decide)).1
